import Mathlib

/-!
Verification of the hybrid CV search orchestrator
(`src/controllers/cvController.js`, function `searchCVs` and its helpers
`buildFilterConditions`, `buildTextSearchQuery`, `buildSortOptions`,
`buildSortStage`).

Shallow embedding conventions:
* A stored document is a `Record`; MongoDB field access is structure access.
* JS strings are `String`; a JS "absent or empty" query is the empty string,
  since `searchCVs` only ever inspects `query` through JS truthiness.
* The external embedding provider plus the `$vectorSearch` stage of the
  aggregation pipeline are a parameter `vectorStage` returning either an
  error or the ranked candidate list produced by that stage. The remaining
  pipeline stages (`$match`, `$sort`, `$skip`, `$limit`, `$project`,
  `$count`) are modelled faithfully as list operations.
* The store-native text index (`$text` operator) is an abstract parameter
  `textIndex`; the escaped-regex fallback predicate is given executable
  semantics (a fully escaped pattern with flag `i` matches a field iff the
  unescaped literal is a case-insensitive substring).
* MongoDB sorting is modelled by a stable insertion sort; the claims only
  depend on length and membership, which any correct sort satisfies.
* Numbers that the controller treats as integers (`limit`, `page`,
  experience values, timestamps) are `Nat`/`Int`.
-/

/-! ### Generic list helpers (substring matching and sorting) -/

/-- `leadsWith needle hay` holds iff `hay` starts with `needle`. -/
def leadsWith [BEq α] : List α → List α → Bool
  | [], _ => true
  | _ :: _, [] => false
  | a :: as, b :: bs => a == b && leadsWith as bs

/-- `occursIn needle hay` holds iff `needle` occurs contiguously in `hay`. -/
def occursIn [BEq α] (needle : List α) : List α → Bool
  | [] => leadsWith needle []
  | b :: bs => leadsWith needle (b :: bs) || occursIn needle bs

/-- Insert an element into a list ordered by the boolean relation `le`. -/
def insertLE (le : α → α → Bool) (a : α) : List α → List α
  | [] => [a]
  | b :: bs => if le a b then a :: b :: bs else b :: insertLE le a bs

/-- Stable insertion sort, modelling the store's `.sort()` /
aggregation `$sort` stage. -/
def sortStable (le : α → α → Bool) : List α → List α
  | [] => []
  | a :: as => insertLE le a (sortStable le as)

theorem length_insertLE (le : α → α → Bool) (a : α) (l : List α) :
    (insertLE le a l).length = l.length + 1 := by
  induction l with
  | nil => rfl
  | cons b bs ih =>
      simp only [insertLE]
      split
      · rfl
      · simp [ih]

theorem length_sortStable (le : α → α → Bool) (l : List α) :
    (sortStable le l).length = l.length := by
  induction l with
  | nil => rfl
  | cons a as ih => simp [sortStable, length_insertLE, ih]

theorem mem_insertLE (le : α → α → Bool) (a x : α) (l : List α) :
    x ∈ insertLE le a l ↔ x = a ∨ x ∈ l := by
  induction l with
  | nil => simp [insertLE]
  | cons b bs ih =>
      simp only [insertLE]
      split
      · simp
      · simp [ih]
        tauto

theorem mem_sortStable (le : α → α → Bool) (x : α) (l : List α) :
    x ∈ sortStable le l ↔ x ∈ l := by
  induction l with
  | nil => simp [sortStable]
  | cons a as ih => simp [sortStable, mem_insertLE, ih]

/-! ### Data model (`src/models/cvModel.js`) -/

/-- The `metadata` sub-document of a stored CV. `extra` models further
ad-hoc metadata keys reachable through the `custom` filter. -/
structure Metadata where
  skills : List String
  experience : Int
  jobTitles : List String
  education : List String
  extra : List (String × String)
deriving DecidableEq

/-- A stored CV document. `content` and `embeddings` are `Option`s so that
the projection stages (`$project`/`select`) can drop them; records in the
store carry `some` values. `textScore` is the store-computed text-relevance
score used by the `textScore` sort metadata. -/
structure Record where
  id : Nat
  content : Option String
  embeddings : Option (List Int)
  uploadDate : Int
  textScore : Int
  metadata : Metadata
deriving DecidableEq

/-- The projection dropping heavy fields: the `$project` stage
(`content: 0, embeddings: 0`), the `.select('-content -embeddings')`
call, and the final `content: undefined, embeddings: undefined` spread
in the response all perform exactly this. -/
def stripHeavy (r : Record) : Record :=
  { r with content := none, embeddings := none }

/-! ### Filter specification and compiled conditions
(`buildFilterConditions`, lines 256-330) -/

/-- The `filters.skills` input: a JS array or a plain string. -/
inductive SkillsInput
  | list (xs : List String)
  | str (s : String)
deriving DecidableEq

/-- The `filters.experience` input: a JS number, or an object that may
carry `min` and `max` bounds. -/
inductive ExpInput
  | num (n : Int)
  | range (min max : Option Int)
deriving DecidableEq

/-- A JS array-or-string input (used by `jobTitles` and `education`). -/
inductive StrOrList
  | list (xs : List String)
  | str (s : String)
deriving DecidableEq

/-- The `filters.dateRange` object; `from` and `to` are independently
optional timestamps. -/
structure DateRangeInput where
  lo : Option Int
  hi : Option Int
deriving DecidableEq

/-- The request's `filters` object. Each field is `none` when the key is
absent from the JS object. -/
structure FilterSpec where
  skills : Option SkillsInput := none
  skillsLogic : Option String := none
  experience : Option ExpInput := none
  jobTitles : Option StrOrList := none
  education : Option StrOrList := none
  dateRange : Option DateRangeInput := none
  custom : Option (List (String × String)) := none
deriving DecidableEq

/-- `Object.keys(filters).length` for the modelled filter keys. -/
def filterKeyCount (f : FilterSpec) : Nat :=
  (if f.skills.isSome then 1 else 0) +
  (if f.skillsLogic.isSome then 1 else 0) +
  (if f.experience.isSome then 1 else 0) +
  (if f.jobTitles.isSome then 1 else 0) +
  (if f.education.isSome then 1 else 0) +
  (if f.dateRange.isSome then 1 else 0) +
  (if f.custom.isSome then 1 else 0)

/-- Compiled condition on `metadata.skills`: `$all`, `$in`, or direct
string equality against the array field. -/
inductive SkillsCond
  | all (xs : List String)
  | anyOf (xs : List String)
  | eqOne (s : String)
deriving DecidableEq

/-- Compiled condition on `metadata.experience`: exact equality or a
`$gte`/`$lte` range object. -/
inductive ExpCond
  | exact (n : Int)
  | range (min max : Option Int)
deriving DecidableEq

/-- Compiled condition on an array-of-strings field: `$in` or direct
string equality. -/
inductive MemberCond
  | inList (xs : List String)
  | eqStr (s : String)
deriving DecidableEq

/-- Compiled condition on `uploadDate`: a `$gte`/`$lte` range object. -/
inductive DateCond
  | range (lo hi : Option Int)
deriving DecidableEq

/-- The compiled `conditions` object built by `buildFilterConditions`. -/
structure FilterConditions where
  skills : Option SkillsCond := none
  experience : Option ExpCond := none
  jobTitles : Option MemberCond := none
  education : Option MemberCond := none
  uploadDate : Option DateCond := none
  custom : List (String × String) := []
deriving DecidableEq

/-- `Object.keys(conditions).length` for the compiled conditions. -/
def condsKeyCount (c : FilterConditions) : Nat :=
  (if c.skills.isSome then 1 else 0) +
  (if c.experience.isSome then 1 else 0) +
  (if c.jobTitles.isSome then 1 else 0) +
  (if c.education.isSome then 1 else 0) +
  (if c.uploadDate.isSome then 1 else 0) +
  c.custom.length

/-- `buildFilterConditions` (controller lines 256-330), including the JS
truthiness guards: `0` and `""` are falsy, arrays and objects are truthy.
For a numeric scalar the `min`/`max` lookups are `undefined`, so only the
`typeof` branch fires. `custom` keys clashing with the structured keys are
not modelled (no claim exercises them). -/
def buildFilterConditions (f : FilterSpec) : FilterConditions :=
  let skills : Option SkillsCond :=
    match f.skills with
    | some (.list xs) =>
        if f.skillsLogic == some "AND" then some (.all xs) else some (.anyOf xs)
    | some (.str s) => if s == "" then none else some (.eqOne s)
    | none => none
  let experience : Option ExpCond :=
    match f.experience with
    | some (.num n) => if n == 0 then none else some (.exact n)
    | some (.range lo hi) => some (.range lo hi)
    | none => none
  let jobTitles : Option MemberCond :=
    match f.jobTitles with
    | some (.list xs) => some (.inList xs)
    | some (.str s) => if s == "" then none else some (.eqStr s)
    | none => none
  let education : Option MemberCond :=
    match f.education with
    | some (.list xs) => some (.inList xs)
    | some (.str s) => if s == "" then none else some (.eqStr s)
    | none => none
  let uploadDate : Option DateCond :=
    match f.dateRange with
    | some dr =>
        some (.range (match dr.lo with | some a => if a == 0 then none else some a | none => none)
                     (match dr.hi with | some b => if b == 0 then none else some b | none => none))
    | none => none
  let custom : List (String × String) :=
    match f.custom with
    | some kvs => kvs
    | none => []
  { skills := skills, experience := experience, jobTitles := jobTitles,
    education := education, uploadDate := uploadDate, custom := custom }

/-- MongoDB match semantics of a compiled skills condition against the
array field `metadata.skills`. -/
def evalSkillsCond : SkillsCond → List String → Bool
  | .all xs, sk => xs.all (fun x => sk.contains x)
  | .anyOf xs, sk => xs.any (fun x => sk.contains x)
  | .eqOne s, sk => sk.contains s

/-- MongoDB match semantics of a compiled experience condition. A range
with neither bound is the empty document `$eq` match, which never matches
a numeric field. -/
def evalExpCond : ExpCond → Int → Bool
  | .exact n, e => e == n
  | .range none none, _ => false
  | .range (some a) none, e => decide (a ≤ e)
  | .range none (some b), e => decide (e ≤ b)
  | .range (some a) (some b), e => decide (a ≤ e) && decide (e ≤ b)

/-- MongoDB match semantics of an `$in`-or-equality condition against an
array-of-strings field. -/
def evalMemberCond : MemberCond → List String → Bool
  | .inList xs, v => xs.any (fun x => v.contains x)
  | .eqStr s, v => v.contains s

/-- MongoDB match semantics of a compiled date condition; as for
experience, an empty range object matches no date value. -/
def evalDateCond : DateCond → Int → Bool
  | .range none none, _ => false
  | .range (some a) none, d => decide (a ≤ d)
  | .range none (some b), d => decide (d ≤ b)
  | .range (some a) (some b), d => decide (a ≤ d) && decide (d ≤ b)

/-- Evaluation of the whole compiled conditions object against a record:
all present sub-conditions must hold (MongoDB conjunction of keys). -/
def evalConds (c : FilterConditions) (r : Record) : Bool :=
  (match c.skills with
   | some sc => evalSkillsCond sc r.metadata.skills
   | none => true) &&
  (match c.experience with
   | some ec => evalExpCond ec r.metadata.experience
   | none => true) &&
  (match c.jobTitles with
   | some mc => evalMemberCond mc r.metadata.jobTitles
   | none => true) &&
  (match c.education with
   | some mc => evalMemberCond mc r.metadata.education
   | none => true) &&
  (match c.uploadDate with
   | some dc => evalDateCond dc r.uploadDate
   | none => true) &&
  c.custom.all (fun kv => r.metadata.extra.lookup kv.1 == some kv.2)

/-! ### Sort resolvers (`buildSortOptions` lines 360-373,
`buildSortStage` lines 381-397) -/

/-- The resolved ordering instruction. -/
inductive SortSpec
  | byUploadDate (dir : Int)
  | byExperience (dir : Int)
  | byTextScore
deriving DecidableEq

/-- `sortOrder.toLowerCase() === 'asc' ? 1 : -1`. -/
def sortDirection (sortOrder : String) : Int :=
  if sortOrder.toLower == "asc" then 1 else -1

/-- `buildSortOptions`: sort options for the `find` (text) path. -/
def buildSortOptions (sortBy sortOrder : String) : SortSpec :=
  match sortBy with
  | "uploadDate" => .byUploadDate (sortDirection sortOrder)
  | "experience" => .byExperience (sortDirection sortOrder)
  | "relevance" => .byTextScore
  | _ => .byUploadDate (-1)

/-- `buildSortStage`: sort stage for the aggregation (vector) path; it has
no `relevance` case, so `relevance` falls into the default. -/
def buildSortStage (sortBy sortOrder : String) : SortSpec :=
  match sortBy with
  | "uploadDate" => .byUploadDate (sortDirection sortOrder)
  | "experience" => .byExperience (sortDirection sortOrder)
  | _ => .byUploadDate (-1)

/-- The boolean ordering a `SortSpec` induces on records; the store sorts
`textScore` metadata descending. -/
def sortLE : SortSpec → Record → Record → Bool
  | .byUploadDate d, a, b =>
      if d == 1 then decide (a.uploadDate ≤ b.uploadDate)
      else decide (b.uploadDate ≤ a.uploadDate)
  | .byExperience d, a, b =>
      if d == 1 then decide (a.metadata.experience ≤ b.metadata.experience)
      else decide (b.metadata.experience ≤ a.metadata.experience)
  | .byTextScore, a, b => decide (b.textScore ≤ a.textScore)

/-! ### Text query builder (`buildTextSearchQuery` lines 337-352) -/

/-- The characters escaped by `query.replace(/[.*+?^$\x7b\x7d()|[\]\\]/g, ...)`:
every regular-expression metacharacter. -/
def isRegexMeta (c : Char) : Bool :=
  c == '.' || c == '*' || c == '+' || c == '?' || c == '^' || c == '$' ||
  c == '\x7b' || c == '\x7d' || c == '(' || c == ')' || c == '|' ||
  c == '[' || c == ']' || c == '\\'

/-- The global replace: each metacharacter `c` becomes `\c`. -/
def escapeChars : List Char → List Char
  | [] => []
  | c :: cs => if isRegexMeta c then '\\' :: c :: escapeChars cs else c :: escapeChars cs

/-- `query.replace(/[.*+?^$\x7b\x7d()|[\]\\]/g, '\\$&')` as a string map. -/
def escapeRegex (q : String) : String := String.mk (escapeChars q.data)

/-- Regex semantics for literal-only patterns: a backslash makes the next
character literal. For the fully escaped patterns the builder produces,
this recovers the original query text. -/
def unescapeChars : List Char → List Char
  | [] => []
  | [c] => [c]
  | c :: d :: rest =>
      if c == '\\' then d :: unescapeChars rest else c :: unescapeChars (d :: rest)

/-- Case-insensitive regex match of a literal-only pattern against a
field value (the semantics of `new RegExp(pattern, 'i')` applied via
`$regex` when `pattern` contains only literals and escapes). -/
def regexLitMatchCI (pattern field : String) : Bool :=
  occursIn ((unescapeChars pattern.data).map Char.toLower)
    (field.data.map Char.toLower)

/-- Direct case-insensitive substring containment of `q` in `s`. -/
def ciContains (q s : String) : Bool :=
  occursIn (q.data.map Char.toLower) (s.data.map Char.toLower)

/-- The query document produced for the text path: the match-all document,
the indexed `$text` search, or the `$or` of case-insensitive regexes over
`metadata.skills`, `metadata.jobTitles`, `metadata.education`, `content`. -/
inductive TextQuery
  | all
  | textIndexSearch (s : String)
  | regexOr (pattern : String)
deriving DecidableEq

/-- Routing condition of `buildTextSearchQuery`: short queries without a
quote or asterisk use the text index (`query.includes` is containment of
the character in the query's character data). -/
def isSimpleQuery (q : String) : Bool :=
  decide (q.length < 50) && !(q.data.contains '"') && !(q.data.contains '*')

/-- `buildTextSearchQuery` (lines 337-352). -/
def buildTextSearchQuery (query : String) : TextQuery :=
  if isSimpleQuery query then .textIndexSearch query
  else .regexOr (escapeRegex query)

/-- Match semantics of a text query document against a record, given the
store's native text-index matcher. -/
def evalTextQuery (textIndex : String → Record → Bool) : TextQuery → Record → Bool
  | .all, _ => true
  | .textIndexSearch s, r => textIndex s r
  | .regexOr pat, r =>
      r.metadata.skills.any (fun s => regexLitMatchCI pat s) ||
      r.metadata.jobTitles.any (fun s => regexLitMatchCI pat s) ||
      r.metadata.education.any (fun s => regexLitMatchCI pat s) ||
      (match r.content with
       | some c => regexLitMatchCI pat c
       | none => false)

/-! ### The orchestrator (`searchCVs`, lines 73-229) -/

/-- The request body of `POST /search` with its destructuring defaults. -/
structure SearchRequest where
  query : String := ""
  limit : Nat := 10
  page : Nat := 1
  filters : FilterSpec := {}
  sortBy : String := "relevance"
  sortOrder : String := "desc"
  searchType : String := "auto"
deriving DecidableEq

/-- The error outcomes of the search endpoint: the 400 validation
rejection and the 500 produced when an explicit vector search fails. -/
inductive SearchError
  | invalidRequest
  | vectorSearchFailed (msg : String)
deriving DecidableEq

/-- The success JSON body assembled at lines 206-220. -/
structure SearchResult where
  success : Bool
  count : Nat
  total : Nat
  page : Nat
  totalPages : Nat
  searchMethod : String
  queryEcho : String
  results : List Record
deriving DecidableEq

deriving instance DecidableEq for Except

/-- The observable outcome of one `searchCVs` call, instrumented with
which executors were actually invoked. -/
structure SearchOutcome where
  outcome : Except SearchError SearchResult
  vectorInvoked : Bool
  textInvoked : Bool
deriving DecidableEq

/-- `Math.ceil(total / limit)` for positive `limit`. -/
def ceilNat (a b : Nat) : Nat := (a + b - 1) / b

/-- Response assembly (lines 206-220): `count` is the page length, and
every record is re-sanitized by spreading `content: undefined,
embeddings: undefined` over it. -/
def buildResponse (page limit : Nat) (query : String)
    (results : List Record) (total : Nat) (method : String) : SearchResult :=
  { success := true, count := results.length, total := total, page := page,
    totalPages := ceilNat total limit, searchMethod := method,
    queryEcho := query, results := results.map stripHeavy }

/-- The `$match` stage, pushed only when the compiled conditions object
has at least one key (line 124). -/
def applyMatchStage (conds : FilterConditions) (l : List Record) : List Record :=
  if 0 < condsKeyCount conds then l.filter (fun r => evalConds conds r) else l

/-- The optional `$sort` stage, pushed only when `sortBy` is not
`relevance` (line 129). -/
def applySortStage (sortBy sortOrder : String) (l : List Record) : List Record :=
  if sortBy != "relevance" then sortStable (sortLE (buildSortStage sortBy sortOrder)) l
  else l

/-- The vector aggregation pipeline after the `$vectorSearch` stage
(lines 111-156): `$match?`, `$sort?`, `$skip`, `$limit`, `$project` for
the results, and the count pipeline (same stages minus
skip/limit/projection, plus `$count`). Returns the page and the count. -/
def vectorPipeline (conds : FilterConditions) (sortBy sortOrder : String)
    (skip limit : Nat) (candidates : List Record) : List Record × Nat :=
  let sorted := applySortStage sortBy sortOrder (applyMatchStage conds candidates)
  (((sorted.drop skip).take limit).map stripHeavy, sorted.length)

/-- The text path (lines 176-202): build the text query document (or the
match-all document when the query is empty), `$and` it with the compiled
filters when those are non-empty, then find, sort, paginate, project and
count. -/
def textSearchRun (store : List Record) (textIndex : String → Record → Bool)
    (query : String) (conds : FilterConditions) (sortBy sortOrder : String)
    (skip limit : Nat) : List Record × Nat :=
  let tq := if query != "" then buildTextSearchQuery query else TextQuery.all
  let finalMatch := fun r =>
    if 0 < condsKeyCount conds then evalTextQuery textIndex tq r && evalConds conds r
    else evalTextQuery textIndex tq r
  let matched := store.filter finalMatch
  let sorted := sortStable (sortLE (buildSortOptions sortBy sortOrder)) matched
  (((sorted.drop skip).take limit).map stripHeavy, matched.length)

/-- Lines 174-220: run the text search when vector search failed, was not
attempted, or produced no page results (`results.length === 0`), or when
`searchType` is exactly `text`; otherwise respond with what the vector
path produced. -/
def textPhase (store : List Record) (textIndex : String → Record → Bool)
    (req : SearchRequest) (conds : FilterConditions) (skip : Nat)
    (prevResults : List Record) (prevTotal : Nat) (prevMethod : String)
    (vInv : Bool) : SearchOutcome :=
  if ((req.searchType == "auto" || req.searchType == "text") && prevResults.isEmpty)
      || req.searchType == "text" then
    ⟨.ok (buildResponse req.page req.limit req.query
        (textSearchRun store textIndex req.query conds req.sortBy
          req.sortOrder skip req.limit).1
        (textSearchRun store textIndex req.query conds req.sortBy
          req.sortOrder skip req.limit).2 "text"), vInv, true⟩
  else
    ⟨.ok (buildResponse req.page req.limit req.query prevResults prevTotal prevMethod),
      vInv, false⟩

/-- `searchCVs` (lines 73-229). `store` is the CV collection, `textIndex`
the store's `$text` matcher, and `vectorStage` the external embedding
call plus `$vectorSearch` stage, invoked with the query, `numCandidates =
max(100, limit*3)` and the stage limit `limit*5`; it yields the ranked
candidate list or an error (embedding or retrieval failure). -/
def searchCVs (store : List Record) (textIndex : String → Record → Bool)
    (vectorStage : String → Nat → Nat → Except String (List Record))
    (req : SearchRequest) : SearchOutcome :=
  if req.query == "" && filterKeyCount req.filters == 0 then
    ⟨.error .invalidRequest, false, false⟩
  else if (req.searchType == "auto" || req.searchType == "vector")
      && req.query != "" then
    match vectorStage req.query (max 100 (req.limit * 3)) (req.limit * 5) with
    | .error e =>
        if req.searchType == "vector" then
          ⟨.error (.vectorSearchFailed ("Vector search failed: " ++ e)), true, false⟩
        else
          textPhase store textIndex req (buildFilterConditions req.filters)
            ((req.page - 1) * req.limit) [] 0 "" true
    | .ok candidates =>
        textPhase store textIndex req (buildFilterConditions req.filters)
          ((req.page - 1) * req.limit)
          (vectorPipeline (buildFilterConditions req.filters) req.sortBy
            req.sortOrder ((req.page - 1) * req.limit) req.limit candidates).1
          (if 0 < (vectorPipeline (buildFilterConditions req.filters) req.sortBy
                req.sortOrder ((req.page - 1) * req.limit) req.limit candidates).2
           then (vectorPipeline (buildFilterConditions req.filters) req.sortBy
                req.sortOrder ((req.page - 1) * req.limit) req.limit candidates).2
           else (vectorPipeline (buildFilterConditions req.filters) req.sortBy
                req.sortOrder ((req.page - 1) * req.limit) req.limit candidates).1.length)
          "vector" true
  else
    textPhase store textIndex req (buildFilterConditions req.filters)
      ((req.page - 1) * req.limit) [] 0 "" false

/-- Extract the `searchMethod` of a success outcome. -/
def okMethod : Except SearchError SearchResult → Option String
  | .ok r => some r.searchMethod
  | .error _ => none

/-- Extract the `total` of a success outcome. -/
def okTotal : Except SearchError SearchResult → Option Nat
  | .ok r => some r.total
  | .error _ => none

/-- Extract the `count` of a success outcome. -/
def okCount : Except SearchError SearchResult → Option Nat
  | .ok r => some r.count
  | .error _ => none

/-- Extract the `totalPages` of a success outcome. -/
def okTotalPages : Except SearchError SearchResult → Option Nat
  | .ok r => some r.totalPages
  | .error _ => none

/-- Extract the results list of a success outcome. -/
def okResults : Except SearchError SearchResult → Option (List Record)
  | .ok r => some r.results
  | .error _ => none

/-! ### Helper lemmas -/

theorem length_applySortStage (sb so : String) (l : List Record) :
    (applySortStage sb so l).length = l.length := by
  unfold applySortStage
  split
  · exact length_sortStable _ _
  · rfl

theorem mem_applySortStage (sb so : String) (x : Record) (l : List Record) :
    x ∈ applySortStage sb so l ↔ x ∈ l := by
  unfold applySortStage
  split
  · exact mem_sortStable _ _ _
  · exact Iff.rfl

theorem vectorPipeline_snd (conds : FilterConditions) (sb so : String)
    (skip lim : Nat) (c : List Record) :
    (vectorPipeline conds sb so skip lim c).2 = (applyMatchStage conds c).length := by
  simp [vectorPipeline, length_applySortStage]

theorem vectorPipeline_fst_length (conds : FilterConditions) (sb so : String)
    (skip lim : Nat) (c : List Record) :
    (vectorPipeline conds sb so skip lim c).1.length
      = min lim ((applyMatchStage conds c).length - skip) := by
  simp [vectorPipeline, List.length_take, List.length_drop, length_applySortStage]

theorem textPhase_outcome_ok (store : List Record) (ti : String → Record → Bool)
    (req : SearchRequest) (conds : FilterConditions) (skip : Nat)
    (pr : List Record) (pt : Nat) (pm : String) (v : Bool) :
    ∃ r, (textPhase store ti req conds skip pr pt pm v).outcome = .ok r := by
  unfold textPhase
  split
  · exact ⟨_, rfl⟩
  · exact ⟨_, rfl⟩

theorem evalConds_of_keyCount_zero (c : FilterConditions)
    (h : condsKeyCount c = 0) (r : Record) : evalConds c r = true := by
  obtain ⟨sk, ex, jt, ed, ud, cu⟩ := c
  simp only [condsKeyCount] at h
  have hsk : sk = none := by
    cases sk
    · rfl
    · simp at h
  have hex : ex = none := by
    cases ex
    · rfl
    · simp at h
  have hjt : jt = none := by
    cases jt
    · rfl
    · simp at h
  have hed : ed = none := by
    cases ed
    · rfl
    · simp at h
  have hud : ud = none := by
    cases ud
    · rfl
    · simp at h
  have hcu : cu = [] := by
    cases cu
    · rfl
    · simp at h
  subst hsk hex hjt hed hud hcu
  simp [evalConds]

theorem escapeChars_eq_nil_iff (cs : List Char) : escapeChars cs = [] ↔ cs = [] := by
  cases cs with
  | nil => simp [escapeChars]
  | cons c cs =>
      simp only [escapeChars]
      split <;> simp

theorem backslash_isRegexMeta : isRegexMeta '\\' = true := by decide

theorem unescapeChars_escapeChars_append (cs rest : List Char) :
    unescapeChars (escapeChars cs ++ rest) = cs ++ unescapeChars rest := by
  induction cs with
  | nil => rfl
  | cons c cs ih =>
      cases hm : isRegexMeta c with
      | true =>
          have hesc : escapeChars (c :: cs) = '\\' :: c :: escapeChars cs := by
            simp [escapeChars, hm]
          have h2 : unescapeChars ('\\' :: c :: (escapeChars cs ++ rest))
              = c :: unescapeChars (escapeChars cs ++ rest) := by
            simp [unescapeChars]
          rw [hesc, List.cons_append, List.cons_append, h2, ih]
          rfl
      | false =>
          have hesc : escapeChars (c :: cs) = c :: escapeChars cs := by
            simp [escapeChars, hm]
          have hc : (c == '\\') = false := by
            cases hb : c == '\\'
            · rfl
            · have hcc : c = '\\' := by simpa using hb
              rw [hcc] at hm
              exact absurd hm (by decide)
          rw [hesc, List.cons_append]
          cases hE : escapeChars cs ++ rest with
          | nil =>
              obtain ⟨h1, h2⟩ := List.append_eq_nil.mp hE
              have h3 : cs = [] := (escapeChars_eq_nil_iff cs).mp h1
              subst h3
              subst h2
              rfl
          | cons d t =>
              have h4 : unescapeChars (c :: d :: t) = c :: unescapeChars (d :: t) := by
                simp [unescapeChars, hc]
              rw [h4, ← hE, ih]
              rfl

theorem unescapeChars_escapeChars (cs : List Char) :
    unescapeChars (escapeChars cs) = cs := by
  have h := unescapeChars_escapeChars_append cs []
  simpa [unescapeChars] using h

theorem regexLitMatchCI_escapeRegex (q s : String) :
    regexLitMatchCI (escapeRegex q) s = ciContains q s := by
  simp [regexLitMatchCI, ciContains, escapeRegex, unescapeChars_escapeChars]

theorem mem_buildResponse_results (page lim : Nat) (query : String)
    (results : List Record) (total : Nat) (method : String) (x : Record)
    (hx : x ∈ (buildResponse page lim query results total method).results) :
    x.content = none ∧ x.embeddings = none := by
  simp only [buildResponse, List.mem_map] at hx
  obtain ⟨y, _, hy⟩ := hx
  subst hy
  exact ⟨rfl, rfl⟩

theorem textPhase_sanitized (store : List Record) (ti : String → Record → Bool)
    (req : SearchRequest) (conds : FilterConditions) (skip : Nat)
    (pr : List Record) (pt : Nat) (pm : String) (v : Bool) (resp : SearchResult)
    (h : (textPhase store ti req conds skip pr pt pm v).outcome = .ok resp) :
    ∀ x ∈ resp.results, x.content = none ∧ x.embeddings = none := by
  unfold textPhase at h
  split at h
  · simp only [Except.ok.injEq] at h
    subst h
    intro x hx
    exact mem_buildResponse_results _ _ _ _ _ _ x hx
  · simp only [Except.ok.injEq] at h
    subst h
    intro x hx
    exact mem_buildResponse_results _ _ _ _ _ _ x hx

/-! ### Concrete fixtures used by witnesses and counterexamples -/

/-- A record with the given id and experience, other fields inert. -/
def recExp (n : Nat) (e : Int) : Record :=
  { id := n, content := some "body", embeddings := some [1], uploadDate := 0,
    textScore := 0,
    metadata := { skills := [], experience := e, jobTitles := [], education := [],
                  extra := [] } }

/-- A text-index matcher that matches nothing. -/
def tiFalse : String → Record → Bool := fun _ _ => false

/-- A text-index matcher that matches everything. -/
def tiTrue : String → Record → Bool := fun _ _ => true

/-- A vector stage that succeeds with an empty candidate list. -/
def vsEmptyOk : String → Nat → Nat → Except String (List Record) :=
  fun _ _ _ => .ok []

/-- A vector stage that always fails. -/
def vsFail : String → Nat → Nat → Except String (List Record) :=
  fun _ _ _ => .error "boom"

/-- Twenty-three candidate records, all passing an empty filter. -/
def sampleCandidates : List Record := (List.range 23).map (fun n => recExp n 5)

/-- A vector stage that succeeds with the 23 sample candidates. -/
def vsOk23 : String → Nat → Nat → Except String (List Record) :=
  fun _ _ _ => .ok sampleCandidates

/-- A vector stage that succeeds with a single candidate. -/
def vsOk1 : String → Nat → Nat → Except String (List Record) :=
  fun _ _ _ => .ok [recExp 0 5]

theorem textPhase_outcome_ne_invalid (store : List Record)
    (ti : String → Record → Bool) (req : SearchRequest)
    (conds : FilterConditions) (skip : Nat) (pr : List Record) (pt : Nat)
    (pm : String) (v : Bool) :
    (textPhase store ti req conds skip pr pt pm v).outcome
      ≠ .error .invalidRequest := by
  unfold textPhase
  split <;> simp

/-! ### Claims -/

/-- C3: for every request with `searchType='vector'` and a query, if the
vector search executor fails, the whole call fails with a
`VectorSearchFailed` error surfaced to the caller, and the text search
executor is never invoked as a substitute. -/
theorem searchCVs_explicit_vector_failure_fatal
    (store : List Record) (ti : String → Record → Bool)
    (vs : String → Nat → Nat → Except String (List Record))
    (q : String) (hq : q ≠ "") (lim pg : Nat) (fil : FilterSpec)
    (sb so e : String)
    (hvs : vs q (max 100 (lim * 3)) (lim * 5) = .error e) :
    searchCVs store ti vs ⟨q, lim, pg, fil, sb, so, "vector"⟩
      = ⟨.error (.vectorSearchFailed ("Vector search failed: " ++ e)),
          true, false⟩ := by
  simp [searchCVs, hq, hvs]

/-- Witness for C3 at a concrete failing vector stage. -/
theorem searchCVs_explicit_vector_failure_fatal_witness :
    searchCVs [] tiFalse vsFail ⟨"x", 10, 1, {}, "relevance", "desc", "vector"⟩
      = ⟨.error (.vectorSearchFailed "Vector search failed: boom"),
          true, false⟩ :=
  searchCVs_explicit_vector_failure_fatal [] tiFalse vsFail "x" (by decide)
    10 1 {} "relevance" "desc" "boom" rfl

/-- C4: for every request with `searchType='auto'` and a non-empty query,
if the vector path fails, the request still completes successfully via
the text executor, the response's `searchMethod` equals `'text'`, and no
exception is surfaced to the caller. -/
theorem searchCVs_auto_vector_failure_falls_back
    (store : List Record) (ti : String → Record → Bool)
    (vs : String → Nat → Nat → Except String (List Record))
    (q : String) (hq : q ≠ "") (lim pg : Nat) (fil : FilterSpec)
    (sb so e : String)
    (hvs : vs q (max 100 (lim * 3)) (lim * 5) = .error e) :
    (searchCVs store ti vs ⟨q, lim, pg, fil, sb, so, "auto"⟩).textInvoked = true
    ∧ okMethod (searchCVs store ti vs ⟨q, lim, pg, fil, sb, so, "auto"⟩).outcome
        = some "text" := by
  constructor <;>
    simp [searchCVs, hq, hvs, textPhase, okMethod, buildResponse]

/-- Witness for C4 at a concrete failing vector stage. -/
theorem searchCVs_auto_vector_failure_falls_back_witness :
    (searchCVs [] tiFalse vsFail ⟨"x", 10, 1, {}, "relevance", "desc", "auto"⟩).textInvoked
        = true
    ∧ okMethod (searchCVs [] tiFalse vsFail
        ⟨"x", 10, 1, {}, "relevance", "desc", "auto"⟩).outcome = some "text" :=
  searchCVs_auto_vector_failure_falls_back [] tiFalse vsFail "x" (by decide)
    10 1 {} "relevance" "desc" "boom" rfl

/-- C5: every request with an empty (or absent) query and an empty
filters object is rejected with `InvalidRequest` before any embedding or
store call is issued (neither executor is invoked); requests with a query
or at least one filter key pass this validation. -/
theorem searchCVs_validation
    (store : List Record) (ti : String → Record → Bool)
    (vs : String → Nat → Nat → Except String (List Record))
    (q : String) (lim pg : Nat) (fil : FilterSpec) (sb so st : String) :
    (q = "" ∧ filterKeyCount fil = 0 →
        searchCVs store ti vs ⟨q, lim, pg, fil, sb, so, st⟩
          = ⟨.error .invalidRequest, false, false⟩)
    ∧ (q ≠ "" ∨ 0 < filterKeyCount fil →
        (searchCVs store ti vs ⟨q, lim, pg, fil, sb, so, st⟩).outcome
          ≠ .error .invalidRequest) := by
  constructor
  · rintro ⟨hq, hf⟩
    subst hq
    simp [searchCVs, hf]
  · intro h
    have hcond : ¬((q == "" && (filterKeyCount fil == 0)) = true) := by
      rcases h with h | h
      · simp [h]
      · intro hcontra
        simp only [Bool.and_eq_true, beq_iff_eq] at hcontra
        omega
    unfold searchCVs
    rw [if_neg hcond]
    split
    · split
      · split
        · simp
        · apply textPhase_outcome_ne_invalid
      · apply textPhase_outcome_ne_invalid
    · apply textPhase_outcome_ne_invalid

/-- Witness for C5: the empty request is rejected, and both a
query-only and a one-filter request pass validation. -/
theorem searchCVs_validation_witness :
    (searchCVs [] tiFalse vsFail ⟨"", 10, 1, {}, "relevance", "desc", "auto"⟩
        = ⟨.error .invalidRequest, false, false⟩)
    ∧ ((searchCVs [] tiFalse vsFail
          ⟨"x", 10, 1, {}, "relevance", "desc", "auto"⟩).outcome
        ≠ .error .invalidRequest)
    ∧ ((searchCVs [] tiFalse vsFail
          ⟨"", 10, 1, { experience := some (.num 3) }, "relevance", "desc",
            "auto"⟩).outcome
        ≠ .error .invalidRequest) :=
  ⟨(searchCVs_validation [] tiFalse vsFail "" 10 1 {} "relevance" "desc"
      "auto").1 ⟨rfl, rfl⟩,
   (searchCVs_validation [] tiFalse vsFail "x" 10 1 {} "relevance" "desc"
      "auto").2 (Or.inl (by decide)),
   (searchCVs_validation [] tiFalse vsFail "" 10 1
      { experience := some (.num 3) } "relevance" "desc" "auto").2
      (Or.inr (by decide))⟩

/-- C10: for every request with `searchType='vector'`, a non-empty
filters object, and no query, neither executor is invoked, and the call
returns a success response with empty results, count 0, total 0, and a
`searchMethod` equal to the empty string. -/
theorem searchCVs_vector_filter_only_noop
    (store : List Record) (ti : String → Record → Bool)
    (vs : String → Nat → Nat → Except String (List Record))
    (lim pg : Nat) (fil : FilterSpec) (hf : 0 < filterKeyCount fil)
    (sb so : String) :
    (searchCVs store ti vs ⟨"", lim, pg, fil, sb, so, "vector"⟩).vectorInvoked
        = false
    ∧ (searchCVs store ti vs ⟨"", lim, pg, fil, sb, so, "vector"⟩).textInvoked
        = false
    ∧ okResults (searchCVs store ti vs
        ⟨"", lim, pg, fil, sb, so, "vector"⟩).outcome = some []
    ∧ okCount (searchCVs store ti vs
        ⟨"", lim, pg, fil, sb, so, "vector"⟩).outcome = some 0
    ∧ okTotal (searchCVs store ti vs
        ⟨"", lim, pg, fil, sb, so, "vector"⟩).outcome = some 0
    ∧ okMethod (searchCVs store ti vs
        ⟨"", lim, pg, fil, sb, so, "vector"⟩).outcome = some "" := by
  have hf' : (filterKeyCount fil == 0) = false := by
    simp only [beq_eq_false_iff_ne]
    omega
  refine ⟨?_, ?_, ?_, ?_, ?_, ?_⟩ <;>
    simp [searchCVs, hf', textPhase, buildResponse, okResults, okCount,
      okTotal, okMethod]

/-- Witness for C10 at a concrete one-filter request. -/
theorem searchCVs_vector_filter_only_noop_witness :
    (searchCVs [] tiFalse vsFail
        ⟨"", 10, 1, { experience := some (.num 3) }, "relevance", "desc",
          "vector"⟩).vectorInvoked = false
    ∧ (searchCVs [] tiFalse vsFail
        ⟨"", 10, 1, { experience := some (.num 3) }, "relevance", "desc",
          "vector"⟩).textInvoked = false
    ∧ okResults (searchCVs [] tiFalse vsFail
        ⟨"", 10, 1, { experience := some (.num 3) }, "relevance", "desc",
          "vector"⟩).outcome = some []
    ∧ okCount (searchCVs [] tiFalse vsFail
        ⟨"", 10, 1, { experience := some (.num 3) }, "relevance", "desc",
          "vector"⟩).outcome = some 0
    ∧ okTotal (searchCVs [] tiFalse vsFail
        ⟨"", 10, 1, { experience := some (.num 3) }, "relevance", "desc",
          "vector"⟩).outcome = some 0
    ∧ okMethod (searchCVs [] tiFalse vsFail
        ⟨"", 10, 1, { experience := some (.num 3) }, "relevance", "desc",
          "vector"⟩).outcome = some "" :=
  searchCVs_vector_filter_only_noop [] tiFalse vsFail 10 1
    { experience := some (.num 3) } (by decide) "relevance" "desc"

/-- C1, counterexample: with `searchType='auto'`, query `"x"`, and a
vector stage that succeeds with an empty candidate list, the text
executor IS invoked and the response's `searchMethod` is `"text"` — the
fallback condition at line 175 fires on `results.length === 0` even when
the vector executor succeeded. -/
theorem searchCVs_auto_vector_success_counterexample :
    (searchCVs [] tiFalse vsEmptyOk
        ⟨"x", 10, 1, {}, "relevance", "desc", "auto"⟩).textInvoked = true
    ∧ okMethod (searchCVs [] tiFalse vsEmptyOk
        ⟨"x", 10, 1, {}, "relevance", "desc", "auto"⟩).outcome = some "text" := by
  decide

/-- C1, amended: for every request with `searchType='auto'` and a
non-empty query, if the vector search executor succeeds AND its
paginated result list is non-empty, the response's `searchMethod` is
`'vector'` and the text search executor is not invoked. -/
theorem searchCVs_auto_vector_success_responds_vector
    (store : List Record) (ti : String → Record → Bool)
    (vs : String → Nat → Nat → Except String (List Record))
    (q : String) (hq : q ≠ "") (lim pg : Nat) (fil : FilterSpec)
    (sb so : String) (c : List Record)
    (hvs : vs q (max 100 (lim * 3)) (lim * 5) = .ok c)
    (hne : (vectorPipeline (buildFilterConditions fil) sb so ((pg - 1) * lim)
        lim c).1 ≠ []) :
    (searchCVs store ti vs ⟨q, lim, pg, fil, sb, so, "auto"⟩).textInvoked = false
    ∧ okMethod (searchCVs store ti vs
        ⟨q, lim, pg, fil, sb, so, "auto"⟩).outcome = some "vector" := by
  have hE : (vectorPipeline (buildFilterConditions fil) sb so ((pg - 1) * lim)
      lim c).1.isEmpty = false := by
    cases hh : (vectorPipeline (buildFilterConditions fil) sb so ((pg - 1) * lim)
        lim c).1.isEmpty
    · rfl
    · exact absurd (List.isEmpty_iff.mp hh) hne
  constructor <;>
    simp [searchCVs, hq, hvs, textPhase, hE, okMethod, buildResponse]

/-- Witness for the amended C1 with a one-candidate vector success. -/
theorem searchCVs_auto_vector_success_responds_vector_witness :
    (searchCVs [] tiFalse vsOk1
        ⟨"x", 10, 1, {}, "relevance", "desc", "auto"⟩).textInvoked = false
    ∧ okMethod (searchCVs [] tiFalse vsOk1
        ⟨"x", 10, 1, {}, "relevance", "desc", "auto"⟩).outcome = some "vector" :=
  searchCVs_auto_vector_success_responds_vector [] tiFalse vsOk1 "x"
    (by decide) 10 1 {} "relevance" "desc" [recExp 0 5] rfl (by decide)

/-- C2: on the vector path (explicit `searchType='vector'`, so the
response always comes from the vector executor), for every page and
limit, the returned `total` equals the count of candidates matching the
compiled filter in the full unpaginated and unlimited candidate set (not
the page size), `totalPages = ceil(total/limit)`, and the page holds
`min(limit, total - skip)` records — so with limit 10 and 23 matching
records, `totalPages = 3` and page 3 returns exactly 3 records. -/
theorem searchCVs_vector_total_from_full_count
    (store : List Record) (ti : String → Record → Bool)
    (vs : String → Nat → Nat → Except String (List Record))
    (q : String) (hq : q ≠ "") (lim pg : Nat) (fil : FilterSpec)
    (sb so : String) (c : List Record)
    (hvs : vs q (max 100 (lim * 3)) (lim * 5) = .ok c) :
    okTotal (searchCVs store ti vs ⟨q, lim, pg, fil, sb, so, "vector"⟩).outcome
        = some (applyMatchStage (buildFilterConditions fil) c).length
    ∧ okTotalPages (searchCVs store ti vs
        ⟨q, lim, pg, fil, sb, so, "vector"⟩).outcome
        = some (ceilNat (applyMatchStage (buildFilterConditions fil) c).length lim)
    ∧ okCount (searchCVs store ti vs
        ⟨q, lim, pg, fil, sb, so, "vector"⟩).outcome
        = some (min lim ((applyMatchStage (buildFilterConditions fil) c).length
            - (pg - 1) * lim))
    ∧ okMethod (searchCVs store ti vs
        ⟨q, lim, pg, fil, sb, so, "vector"⟩).outcome = some "vector" := by
  have hsnd := vectorPipeline_snd (buildFilterConditions fil) sb so
    ((pg - 1) * lim) lim c
  have hfst := vectorPipeline_fst_length (buildFilterConditions fil) sb so
    ((pg - 1) * lim) lim c
  rcases Nat.eq_zero_or_pos (applyMatchStage (buildFilterConditions fil) c).length
    with h0 | hpos
  · refine ⟨?_, ?_, ?_, ?_⟩ <;>
      simp [searchCVs, hq, hvs, textPhase, buildResponse, okTotal,
        okTotalPages, okCount, okMethod, hsnd, hfst, h0]
  · have hif : (0 < (vectorPipeline (buildFilterConditions fil) sb so
        ((pg - 1) * lim) lim c).2) = True := by
      rw [hsnd]
      exact eq_true hpos
    have hne : applyMatchStage (buildFilterConditions fil) c ≠ [] := by
      intro hnil
      rw [hnil] at hpos
      simp at hpos
    refine ⟨?_, ?_, ?_, ?_⟩ <;>
      simp [searchCVs, hq, hvs, textPhase, buildResponse, okTotal,
        okTotalPages, okCount, okMethod, hsnd, hfst, hif, hpos, hne]

/-- Witness for C2: 23 matching candidates, limit 10, page 3 gives
total 23, totalPages 3, and exactly 3 records on the page. -/
theorem searchCVs_vector_total_from_full_count_witness :
    okTotal (searchCVs [] tiFalse vsOk23
        ⟨"x", 10, 3, {}, "relevance", "desc", "vector"⟩).outcome = some 23
    ∧ okTotalPages (searchCVs [] tiFalse vsOk23
        ⟨"x", 10, 3, {}, "relevance", "desc", "vector"⟩).outcome = some 3
    ∧ okCount (searchCVs [] tiFalse vsOk23
        ⟨"x", 10, 3, {}, "relevance", "desc", "vector"⟩).outcome = some 3
    ∧ okMethod (searchCVs [] tiFalse vsOk23
        ⟨"x", 10, 3, {}, "relevance", "desc", "vector"⟩).outcome = some "vector" :=
  searchCVs_vector_total_from_full_count [] tiFalse vsOk23 "x" (by decide)
    10 3 {} "relevance" "desc" sampleCandidates rfl

/-- Characterization of the text executor for an empty query: the text
query document is the match-all document, so only the compiled filters
select records (and when the compiled conditions are empty the final
query matches every record, which coincides with the empty conditions
evaluating to true). -/
theorem textSearchRun_emptyQuery (store : List Record)
    (ti : String → Record → Bool) (conds : FilterConditions)
    (sb so : String) (skip lim : Nat) :
    textSearchRun store ti "" conds sb so skip lim
      = ((((sortStable (sortLE (buildSortOptions sb so))
            (store.filter (fun r => evalConds conds r))).drop skip).take
              lim).map stripHeavy,
         (store.filter (fun r => evalConds conds r)).length) := by
  have hfc : (store.filter (fun r =>
      if 0 < condsKeyCount conds
      then evalTextQuery ti TextQuery.all r && evalConds conds r
      else evalTextQuery ti TextQuery.all r))
      = store.filter (fun r => evalConds conds r) := by
    by_cases hc : 0 < condsKeyCount conds
    · simp [hc, evalTextQuery]
    · have h0 : condsKeyCount conds = 0 := by omega
      have hall : ∀ r, evalConds conds r = true := evalConds_of_keyCount_zero conds h0
      simp [hc, evalTextQuery, hall]
  simp only [textSearchRun]
  simp only [show (("" : String) != "") = false from rfl, Bool.false_eq_true,
    if_false]
  rw [hfc]

theorem stripHeavy_idem (r : Record) :
    stripHeavy (stripHeavy r) = stripHeavy r := rfl

/-- C6: for every request with `searchType='text'`, no query, and a
non-empty filters object, the text executor performs filter-only
retrieval and the call succeeds with `searchMethod = 'text'`: the total
is the count of records matching the compiled filters, and every
returned record is a (sanitized) store record matching the compiled
filters. -/
theorem searchCVs_text_filter_only (store : List Record)
    (ti : String → Record → Bool)
    (vs : String → Nat → Nat → Except String (List Record))
    (lim pg : Nat) (fil : FilterSpec) (hf : 0 < filterKeyCount fil)
    (sb so : String) :
    okMethod (searchCVs store ti vs ⟨"", lim, pg, fil, sb, so, "text"⟩).outcome
        = some "text"
    ∧ okTotal (searchCVs store ti vs ⟨"", lim, pg, fil, sb, so, "text"⟩).outcome
        = some (store.filter
            (fun r => evalConds (buildFilterConditions fil) r)).length
    ∧ ∀ l, okResults (searchCVs store ti vs
          ⟨"", lim, pg, fil, sb, so, "text"⟩).outcome = some l →
        ∀ x ∈ l, ∃ y, y ∈ store ∧ evalConds (buildFilterConditions fil) y = true
          ∧ x = stripHeavy y := by
  have hf' : (filterKeyCount fil == 0) = false := by
    simp only [beq_eq_false_iff_ne]
    omega
  have hrun := textSearchRun_emptyQuery store ti (buildFilterConditions fil)
    sb so ((pg - 1) * lim) lim
  have hout : searchCVs store ti vs ⟨"", lim, pg, fil, sb, so, "text"⟩
      = ⟨.ok (buildResponse pg lim ""
          ((((sortStable (sortLE (buildSortOptions sb so))
              (store.filter (fun r =>
                evalConds (buildFilterConditions fil) r))).drop
                  ((pg - 1) * lim)).take lim).map stripHeavy)
          (store.filter (fun r =>
            evalConds (buildFilterConditions fil) r)).length
          "text"), false, true⟩ := by
    simp [searchCVs, hf', textPhase, hrun]
  refine ⟨?_, ?_, ?_⟩
  · rw [hout]
    simp [okMethod, buildResponse]
  · rw [hout]
    simp [okTotal, buildResponse]
  · intro l hl x hx
    rw [hout] at hl
    simp only [okResults, buildResponse, Option.some.injEq] at hl
    subst hl
    rcases List.mem_map.mp hx with ⟨x1, hx1, hxx⟩
    rcases List.mem_map.mp hx1 with ⟨y, hy, hyx⟩
    have hy1 : y ∈ (sortStable (sortLE (buildSortOptions sb so))
        (store.filter (fun r => evalConds (buildFilterConditions fil) r))) :=
      List.mem_of_mem_drop (List.mem_of_mem_take hy)
    rw [mem_sortStable] at hy1
    rw [List.mem_filter] at hy1
    refine ⟨y, hy1.1, hy1.2, ?_⟩
    rw [← hxx, ← hyx]
    rfl

/-- Witness for C6: a one-record store, a filter-only text request. -/
theorem searchCVs_text_filter_only_witness :
    okMethod (searchCVs [recExp 0 3] tiFalse vsFail
        ⟨"", 10, 1, { experience := some (.num 3) }, "relevance", "desc",
          "text"⟩).outcome = some "text"
    ∧ okTotal (searchCVs [recExp 0 3] tiFalse vsFail
        ⟨"", 10, 1, { experience := some (.num 3) }, "relevance", "desc",
          "text"⟩).outcome = some 1
    ∧ ∀ l, okResults (searchCVs [recExp 0 3] tiFalse vsFail
          ⟨"", 10, 1, { experience := some (.num 3) }, "relevance", "desc",
            "text"⟩).outcome = some l →
        ∀ x ∈ l, ∃ y, y ∈ [recExp 0 3]
          ∧ evalConds (buildFilterConditions
              { experience := some (.num 3) }) y = true
          ∧ x = stripHeavy y :=
  searchCVs_text_filter_only [recExp 0 3] tiFalse vsFail 10 1
    { experience := some (.num 3) } (by decide) "relevance" "desc"

/-- C7, counterexample: the original claim fails at two concrete inputs.
First, for the scalar experience value `0`, the compiled predicate
imposes NO constraint (the JS truthiness guard `if (filters.experience)`
skips falsy `0`), so it accepts a record whose experience is 5 — not
exact equality as claimed. Second, for an experience range with both
bounds absent — which the claim's "both bounds independently optional"
covers and for which it requires nothing, so every record should be
accepted — the code compiles the never-matching empty equality condition
on `metadata.experience`, so the predicate rejects the record. -/
theorem buildFilterConditions_experience_counterexample :
    (evalConds (buildFilterConditions { experience := some (.num 0) })
        (recExp 0 5) = true
      ∧ (recExp 0 5).metadata.experience ≠ 0)
    ∧ evalConds (buildFilterConditions
        { experience := some (.range none none) }) (recExp 0 5) = false := by
  decide

/-- C7, amended: for every FilterSpec whose experience field is a single
NONZERO scalar, the compiled predicate requires exact equality of the
record's experience with that value; for experience given as a min/max
range with at least one bound present, the compiled predicate requires
experience ≥ min when min is present and experience ≤ max when max is
present, bounds independently optional. Both exclusions are forced by
the counterexample: the scalar 0 compiles to no constraint, and the
range with both bounds absent compiles to a never-matching condition. -/
theorem buildFilterConditions_experience_semantics (n : Int) (hn : n ≠ 0)
    (lo hi : Option Int) (hlh : lo.isSome ∨ hi.isSome) (r : Record) :
    (evalConds (buildFilterConditions { experience := some (.num n) }) r = true
      ↔ r.metadata.experience = n)
    ∧ (evalConds (buildFilterConditions
          { experience := some (.range lo hi) }) r = true
      ↔ (∀ a ∈ lo, a ≤ r.metadata.experience)
        ∧ (∀ b ∈ hi, r.metadata.experience ≤ b)) := by
  constructor
  · have hn' : (n == 0) = false := by simpa using hn
    simp [buildFilterConditions, evalConds, hn', evalExpCond]
  · rcases lo with _ | a <;> rcases hi with _ | b
    · rcases hlh with h | h <;> simp at h
    · simp [buildFilterConditions, evalConds, evalExpCond]
    · simp [buildFilterConditions, evalConds, evalExpCond]
    · simp [buildFilterConditions, evalConds, evalExpCond]

/-- Witness for the amended C7: scalar 3 against a matching record, and
the range 2..5 instance from the spec. -/
theorem buildFilterConditions_experience_semantics_witness :
    ((3 : Int) ≠ 0)
    ∧ (evalConds (buildFilterConditions { experience := some (.num 3) })
          (recExp 0 3) = true
        ↔ (recExp 0 3).metadata.experience = 3)
    ∧ (evalConds (buildFilterConditions
          { experience := some (.range (some 2) (some 5)) }) (recExp 0 3) = true
        ↔ (∀ a ∈ some (2 : Int), a ≤ (recExp 0 3).metadata.experience)
          ∧ (∀ b ∈ some (5 : Int), (recExp 0 3).metadata.experience ≤ b)) :=
  ⟨by decide,
   (buildFilterConditions_experience_semantics 3 (by decide) (some 2) (some 5)
      (Or.inl rfl) (recExp 0 3)).1,
   (buildFilterConditions_experience_semantics 3 (by decide) (some 2) (some 5)
      (Or.inl rfl) (recExp 0 3)).2⟩

/-- C8: queries of length < 50 with no quote and no asterisk route to the
indexed-text-search predicate; every other query routes to the fallback
predicate built from the metacharacter-escaped pattern, whose
case-insensitive regex semantics is literal substring containment of the
original query across skills, job titles, education and content,
combined with OR. -/
theorem buildTextSearchQuery_routing (q : String)
    (ti : String → Record → Bool) (r : Record) :
    (q.length < 50 ∧ q.data.contains '"' = false ∧ q.data.contains '*' = false →
      buildTextSearchQuery q = .textIndexSearch q)
    ∧ (50 ≤ q.length ∨ q.data.contains '"' = true ∨ q.data.contains '*' = true →
      buildTextSearchQuery q = .regexOr (escapeRegex q)
      ∧ evalTextQuery ti (buildTextSearchQuery q) r
          = (r.metadata.skills.any (fun s => ciContains q s)
             || r.metadata.jobTitles.any (fun s => ciContains q s)
             || r.metadata.education.any (fun s => ciContains q s)
             || (match r.content with
                 | some c => ciContains q c
                 | none => false))) := by
  constructor
  · rintro ⟨h1, h2, h3⟩
    have h2' : '"' ∉ q.data := by simpa using h2
    have h3' : '*' ∉ q.data := by simpa using h3
    have hs : isSimpleQuery q = true := by
      simp [isSimpleQuery, h1, h2', h3']
    simp [buildTextSearchQuery, hs]
  · intro h
    have hs : isSimpleQuery q = false := by
      rcases h with h | h | h
      · simp [isSimpleQuery, Nat.not_lt.mpr h]
      · have h' : '"' ∈ q.data := by simpa using h
        simp [isSimpleQuery, h']
      · have h' : '*' ∈ q.data := by simpa using h
        simp [isSimpleQuery, h']
    have hb : buildTextSearchQuery q = .regexOr (escapeRegex q) := by
      simp [buildTextSearchQuery, hs]
    refine ⟨hb, ?_⟩
    rw [hb]
    simp [evalTextQuery, regexLitMatchCI_escapeRegex]

/-- Witness for C8: a short plain query routes to the text index; a
query with an asterisk routes to the escaped-regex fallback. -/
theorem buildTextSearchQuery_routing_witness :
    buildTextSearchQuery "react developer" = .textIndexSearch "react developer"
    ∧ buildTextSearchQuery "c*" = .regexOr (escapeRegex "c*") :=
  ⟨(buildTextSearchQuery_routing "react developer" tiFalse (recExp 0 5)).1
      (by decide),
   ((buildTextSearchQuery_routing "c*" tiFalse (recExp 0 5)).2
      (by decide)).1⟩

/-- C9: every record in every successful response, whichever executor
produced it, has its `content` field and raw `embeddings` vector
omitted (the response assembly re-sanitizes every result). -/
theorem searchCVs_results_sanitized (store : List Record)
    (ti : String → Record → Bool)
    (vs : String → Nat → Nat → Except String (List Record))
    (req : SearchRequest) (l : List Record)
    (h : okResults (searchCVs store ti vs req).outcome = some l) :
    ∀ x ∈ l, x.content = none ∧ x.embeddings = none := by
  intro x hx
  cases ho : (searchCVs store ti vs req).outcome with
  | error e =>
      rw [ho] at h
      simp [okResults] at h
  | ok resp =>
      rw [ho] at h
      simp only [okResults, Option.some.injEq] at h
      subst h
      revert ho
      unfold searchCVs
      split
      · intro ho
        simp at ho
      · split
        · split
          · split
            · intro ho
              simp at ho
            · intro ho
              exact textPhase_sanitized _ _ _ _ _ _ _ _ _ resp ho x hx
          · intro ho
            exact textPhase_sanitized _ _ _ _ _ _ _ _ _ resp ho x hx
        · intro ho
          exact textPhase_sanitized _ _ _ _ _ _ _ _ _ resp ho x hx

/-- Witness for C9: a concrete text search returning one sanitized
record, checked at that record. -/
theorem searchCVs_results_sanitized_witness :
    (stripHeavy (recExp 0 5)).content = none
    ∧ (stripHeavy (recExp 0 5)).embeddings = none :=
  searchCVs_results_sanitized [recExp 0 5] tiTrue vsFail
    ⟨"x", 10, 1, {}, "relevance", "desc", "text"⟩ [stripHeavy (recExp 0 5)]
    (by decide) (stripHeavy (recExp 0 5)) (by simp)
